import Mathlib

/-! Kings of Tokyo player strategies: `mabs.c` and `science.c`.


A shallow embedding of the two strategy modules of the repository and of the
shared declarations of `playerFunctionality.h`.

* C `int` fields are `Int`. The code only compares and assigns them, so no
  arithmetic can overflow; every machine `int` is an `Int`.
* C `char` fields are `Char`; the code only compares them for equality.
* The C functions return `void` and act through their pointer arguments and
  through `stdout`. Each is embedded as a function from the objects it can
  reach to the same objects after the call.
-/

/-! ## Shared declarations (`playerFunctionality.h`) -/

/-- The constant `KEEP` of `playerFunctionality.h`: `#define KEEP 0`. -/
def KEEP : Int := 0

/-- Other player summary, the struct `Players` of `playerFunctionality.h`. -/
structure Players where
  label : Char
  health : Int
  points : Int
  deriving DecidableEq, Repr

/-- This player, the struct `Player` of `playerFunctionality.h`. The pointer
`Players* players` is the sequence of records it points to. -/
structure Player where
  health : Int
  rerolls : Int
  points : Int
  label : Char
  totalPlayers : Int
  remainingPlayers : Int
  stLuciaOccupant : Char
  players : List Players
  deriving DecidableEq, Repr

/-- Modelled from the spec: the struct `DiceContent` is declared in
`utilities.h`, which is not among the sources. The spec gives it three fields,
one per dice category, `attack`, `health` and `three`; the code assigns the
integer constant `KEEP` to them, so they are integers here. -/
structure DiceContent where
  attack : Int
  health : Int
  three : Int
  deriving DecidableEq, Repr

/-- Modelled from the spec: a roll as the driver constructs it before a
decision, every field holding the reroll value. The reroll value itself is
declared outside the sources and is the argument `reroll`. -/
def freshRoll (reroll : Int) : DiceContent :=
  { attack := reroll, health := reroll, three := reroll }

/-! ## The output stream -/

/-- The stream `stdout` as the code sees it: the characters already handed to
the reader and the characters still held in the stdio buffer. Write errors are
not modelled (the code ignores the results of `printf` and `fflush`). -/
structure Stdout where
  delivered : String
  buffered : String
  deriving DecidableEq, Repr

/-- The call `printf(text)` for a format string without conversions: the text
is appended to the stream. -/
def printf (text : String) (out : Stdout) : Stdout :=
  { out with buffered := out.buffered ++ text }

/-- The call `fflush(stdout)`: everything buffered is handed to the reader. -/
def fflush (out : Stdout) : Stdout :=
  { delivered := out.delivered ++ out.buffered, buffered := "" }

/-- Everything ever written to the stream, delivered or not. -/
def Stdout.written (out : Stdout) : String :=
  out.delivered ++ out.buffered

/-! ## Memory reachable from the two entry points -/

/-- The objects `keep_dice(DiceContent* dice, Player* player)` can reach,
as they are when the call returns. -/
structure KeepMem where
  dice : DiceContent
  player : Player
  deriving DecidableEq, Repr

/-- The objects `process_stay(char* command, Player* player)` can reach,
as they are when the call returns: its two arguments and `stdout`. -/
structure StayMem where
  command : String
  player : Player
  stdout : Stdout
  deriving DecidableEq, Repr

/-! ## `mabs.c` -/

namespace mabs

/-- The function `process_stay` of `mabs.c`:
`printf("go\n"); fflush(stdout);`. -/
def process_stay (command : String) (player : Player) (out : Stdout) : StayMem :=
  let out := printf "go\n" out
  let out := fflush out
  { command := command, player := player, stdout := out }

/-- The function `keep_dice` of `mabs.c`: `dice->three = KEEP;` then
`dice->attack = KEEP` when `player->stLuciaOccupant == player->label`, else
`dice->health = KEEP`. -/
def keep_dice (dice : DiceContent) (player : Player) : KeepMem :=
  let dice := { dice with three := KEEP }
  if player.stLuciaOccupant = player.label then
    let dice := { dice with attack := KEEP }
    { dice := dice, player := player }
  else
    let dice := { dice with health := KEEP }
    { dice := dice, player := player }

end mabs

/-! ## `science.c` -/

namespace science

/-- The function `keep_dice` of `science.c`: `dice->health = KEEP` when
`player->health < 5`, else `dice->attack = KEEP`. -/
def keep_dice (dice : DiceContent) (player : Player) : KeepMem :=
  if player.health < 5 then
    let dice := { dice with health := KEEP }
    { dice := dice, player := player }
  else
    let dice := { dice with attack := KEEP }
    { dice := dice, player := player }

/-- The function `process_stay` of `science.c`:
`printf("go\n"); fflush(stdout); return;`. -/
def process_stay (command : String) (player : Player) (out : Stdout) : StayMem :=
  let out := printf "go\n" out
  let out := fflush out
  { command := command, player := player, stdout := out }

end science

/-! ## Concrete inputs used by the witnesses -/

/-- The scenario state `{label:'A', stLuciaOccupant:'A', health:7}`. -/
def stateInStLucia : Player :=
  { health := 7, rerolls := 2, points := 0, label := 'A', totalPlayers := 2,
    remainingPlayers := 2, stLuciaOccupant := 'A',
    players := [{ label := 'B', health := 10, points := 0 }] }

/-- The scenario state `{label:'A', stLuciaOccupant:'B', health:3}`. -/
def stateOutside : Player :=
  { health := 3, rerolls := 2, points := 0, label := 'A', totalPlayers := 2,
    remainingPlayers := 2, stLuciaOccupant := 'B',
    players := [{ label := 'B', health := 10, points := 0 }] }

/-- The scenario state `{health:4}`. -/
def stateHealth4 : Player :=
  { health := 4, rerolls := 1, points := 3, label := 'A', totalPlayers := 3,
    remainingPlayers := 2, stLuciaOccupant := 'C',
    players := [{ label := 'C', health := 6, points := 1 }] }

/-- The scenario state `{health:5}`. -/
def stateHealth5 : Player :=
  { health := 5, rerolls := 1, points := 3, label := 'A', totalPlayers := 3,
    remainingPlayers := 2, stLuciaOccupant := 'C',
    players := [{ label := 'C', health := 6, points := 1 }] }

/-- A roll that is not fresh: its fields hold three different values. -/
def usedRoll : DiceContent :=
  { attack := 1, health := 2, three := 3 }

/-- A state that shares no field value with the scenario states: negative
health, another label, another occupant, no opponent record. -/
def stateElsewhere : Player :=
  { health := -2, rerolls := 0, points := 9, label := 'Z', totalPlayers := 4,
    remainingPlayers := 3, stLuciaOccupant := 'Q', players := [] }

/-! ## Theorems -/

/-- C1. StLucia variant: when the player occupies StLucia
(`label == stLuciaOccupant`), `keep_dice` turns a fresh roll, whatever the
reroll value is, into the roll with `attack = KEEP`, `health` still reroll and
`three = KEEP`. -/
theorem mabs_keep_dice_in_stLucia (reroll : Int) (state : Player)
    (h : state.label = state.stLuciaOccupant) :
    (mabs.keep_dice (freshRoll reroll) state).dice
      = { attack := KEEP, health := reroll, three := KEEP } := by
  simp [mabs.keep_dice, freshRoll, h]

/-- Witness of C1 at the state `{label:'A', stLuciaOccupant:'A', health:7}`
and reroll value 1. -/
theorem mabs_keep_dice_in_stLucia_witness :
    stateInStLucia.label = stateInStLucia.stLuciaOccupant ∧
    (mabs.keep_dice (freshRoll 1) stateInStLucia).dice
      = { attack := KEEP, health := 1, three := KEEP } :=
  ⟨by decide, mabs_keep_dice_in_stLucia 1 stateInStLucia (by decide)⟩

/-- C2. StLucia variant: when the player does not occupy StLucia
(`label != stLuciaOccupant`), `keep_dice` turns a fresh roll into the roll with
`health = KEEP`, `attack` still reroll and `three = KEEP`. -/
theorem mabs_keep_dice_outside (reroll : Int) (state : Player)
    (h : state.label ≠ state.stLuciaOccupant) :
    (mabs.keep_dice (freshRoll reroll) state).dice
      = { attack := reroll, health := KEEP, three := KEEP } := by
  have h2 : ¬ state.stLuciaOccupant = state.label := fun e => h e.symm
  simp [mabs.keep_dice, freshRoll, h2]

/-- Witness of C2 at the state `{label:'A', stLuciaOccupant:'B', health:3}`
and reroll value 1. -/
theorem mabs_keep_dice_outside_witness :
    stateOutside.label ≠ stateOutside.stLuciaOccupant ∧
    (mabs.keep_dice (freshRoll 1) stateOutside).dice
      = { attack := 1, health := KEEP, three := KEEP } :=
  ⟨by decide, mabs_keep_dice_outside 1 stateOutside (by decide)⟩

/-- C3. Science variant: when `health < 5` (zero and negative health included),
`keep_dice` turns a fresh roll into the roll with `health = KEEP`, `attack`
still reroll and `three` still reroll. -/
theorem science_keep_dice_low_health (reroll : Int) (state : Player)
    (h : state.health < 5) :
    (science.keep_dice (freshRoll reroll) state).dice
      = { attack := reroll, health := KEEP, three := reroll } := by
  simp [science.keep_dice, freshRoll, h]

/-- Witness of C3 at the state `{health:4}` and reroll value 1. -/
theorem science_keep_dice_low_health_witness :
    stateHealth4.health < 5 ∧
    (science.keep_dice (freshRoll 1) stateHealth4).dice
      = { attack := 1, health := KEEP, three := 1 } :=
  ⟨by decide, science_keep_dice_low_health 1 stateHealth4 (by decide)⟩

/-- C4. Science variant: when `health >= 5` (the value 5 included),
`keep_dice` turns a fresh roll into the roll with `attack = KEEP`, `health`
still reroll and `three` still reroll. -/
theorem science_keep_dice_high_health (reroll : Int) (state : Player)
    (h : 5 ≤ state.health) :
    (science.keep_dice (freshRoll reroll) state).dice
      = { attack := KEEP, health := reroll, three := reroll } := by
  have h2 : ¬ state.health < 5 := not_lt.mpr h
  simp [science.keep_dice, freshRoll, h2]

/-- Witness of C4 at the boundary state `{health:5}` and reroll value 1. -/
theorem science_keep_dice_high_health_witness :
    5 ≤ stateHealth5.health ∧
    (science.keep_dice (freshRoll 1) stateHealth5).dice
      = { attack := KEEP, health := 1, three := 1 } :=
  ⟨by decide, science_keep_dice_high_health 1 stateHealth5 (by decide)⟩

/-- C5. StLucia variant: for every input roll, fresh or not, and every player
state, the roll after `keep_dice` has `three = KEEP`. -/
theorem mabs_keep_dice_three (dice : DiceContent) (state : Player) :
    (mabs.keep_dice dice state).dice.three = KEEP := by
  unfold mabs.keep_dice
  split <;> rfl

/-- C6. Both variants of `process_stay`: for every command string and every
player state, the call adds exactly the line `go` (the characters `g`, `o` and
a newline) to the output stream and leaves nothing buffered, so that an empty
stream holds exactly that line afterwards; the stream after the call is the
same for any other command and player state. -/
theorem process_stay_emits_go (command : String) (player : Player) (out : Stdout) :
    "go\n".data = ['g', 'o', Char.ofNat 10] ∧
    (mabs.process_stay command player out).stdout
      = { delivered := out.written ++ "go\n", buffered := "" } ∧
    (science.process_stay command player out).stdout
      = { delivered := out.written ++ "go\n", buffered := "" } ∧
    (mabs.process_stay command player { delivered := "", buffered := "" }).stdout.delivered
      = "go\n" ∧
    (science.process_stay command player { delivered := "", buffered := "" }).stdout.delivered
      = "go\n" ∧
    (∀ (command2 : String) (player2 : Player),
      (mabs.process_stay command2 player2 out).stdout
        = (mabs.process_stay command player out).stdout ∧
      (science.process_stay command2 player2 out).stdout
        = (science.process_stay command player out).stdout) := by
  refine ⟨by decide, ?_, ?_, rfl, rfl, fun _ _ => ⟨rfl, rfl⟩⟩
  · simp [mabs.process_stay, printf, fflush, Stdout.written, String.append_assoc]
  · simp [science.process_stay, printf, fflush, Stdout.written, String.append_assoc]

/-- C7. Both variants of `keep_dice` leave untouched the fields they do not
set to `KEEP`, for every input roll and state. StLucia variant: `health` when
`label == stLuciaOccupant`, `attack` otherwise. Science variant: `three`
always, `attack` when `health < 5`, `health` when `health >= 5`. -/
theorem keep_dice_frame (dice : DiceContent) (state : Player) :
    (state.label = state.stLuciaOccupant →
      (mabs.keep_dice dice state).dice.health = dice.health) ∧
    (state.label ≠ state.stLuciaOccupant →
      (mabs.keep_dice dice state).dice.attack = dice.attack) ∧
    (science.keep_dice dice state).dice.three = dice.three ∧
    (state.health < 5 →
      (science.keep_dice dice state).dice.attack = dice.attack) ∧
    (5 ≤ state.health →
      (science.keep_dice dice state).dice.health = dice.health) := by
  refine ⟨?_, ?_, ?_, ?_, ?_⟩
  · intro h
    simp [mabs.keep_dice, h]
  · intro h
    have h2 : ¬ state.stLuciaOccupant = state.label := fun e => h e.symm
    simp [mabs.keep_dice, h2]
  · unfold science.keep_dice
    split <;> rfl
  · intro h
    simp [science.keep_dice, h]
  · intro h
    have h2 : ¬ state.health < 5 := not_lt.mpr h
    simp [science.keep_dice, h2]

/-- Witness of C7 on a roll whose three fields differ, at the four scenario
states: each untouched field keeps the value it had. -/
theorem keep_dice_frame_witness :
    (mabs.keep_dice usedRoll stateInStLucia).dice.health = 2 ∧
    (mabs.keep_dice usedRoll stateOutside).dice.attack = 1 ∧
    (science.keep_dice usedRoll stateHealth4).dice.three = 3 ∧
    (science.keep_dice usedRoll stateHealth4).dice.attack = 1 ∧
    (science.keep_dice usedRoll stateHealth5).dice.health = 2 :=
  ⟨(keep_dice_frame usedRoll stateInStLucia).1 (by decide),
   (keep_dice_frame usedRoll stateOutside).2.1 (by decide),
   (keep_dice_frame usedRoll stateHealth4).2.2.1,
   (keep_dice_frame usedRoll stateHealth4).2.2.2.1 (by decide),
   (keep_dice_frame usedRoll stateHealth5).2.2.2.2 (by decide)⟩

/-- C8. Both variants of `keep_dice` are idempotent: for every roll and every
player state, a second call on the roll and the state left by the first call
leaves them as the first call did. -/
theorem keep_dice_idempotent (dice : DiceContent) (state : Player) :
    mabs.keep_dice (mabs.keep_dice dice state).dice (mabs.keep_dice dice state).player
      = mabs.keep_dice dice state ∧
    science.keep_dice (science.keep_dice dice state).dice
        (science.keep_dice dice state).player
      = science.keep_dice dice state := by
  constructor
  · unfold mabs.keep_dice
    by_cases h : state.stLuciaOccupant = state.label <;> simp [h]
  · unfold science.keep_dice
    by_cases h : state.health < 5 <;> simp [h]

/-- C9. Both variants of `keep_dice` are deterministic. Two calls given equal
fresh rolls and equal player states yield equal rolls; and a call on a fresh
roll equal to the one of an earlier call, with the player state as that
earlier call left it, yields the roll the earlier call yielded: nothing but
the roll and the state is carried from one call to the next. -/
theorem keep_dice_deterministic (reroll : Int) (dice1 dice2 : DiceContent)
    (state1 state2 : Player) (hfresh : dice1 = freshRoll reroll)
    (hdice : dice2 = dice1) (hstate : state2 = state1) :
    (mabs.keep_dice dice2 state2).dice = (mabs.keep_dice dice1 state1).dice ∧
    (science.keep_dice dice2 state2).dice = (science.keep_dice dice1 state1).dice ∧
    (mabs.keep_dice dice2 (mabs.keep_dice dice1 state1).player).dice
      = (mabs.keep_dice dice1 state1).dice ∧
    (science.keep_dice dice2 (science.keep_dice dice1 state1).player).dice
      = (science.keep_dice dice1 state1).dice := by
  subst hdice hstate hfresh
  refine ⟨rfl, rfl, ?_, ?_⟩
  · unfold mabs.keep_dice
    by_cases h : state2.stLuciaOccupant = state2.label <;> simp [h]
  · unfold science.keep_dice
    by_cases h : state2.health < 5 <;> simp [h]

/-- Witness of C9 at the fresh roll of reroll value 1 and the scenario state
`{health:4}`. -/
theorem keep_dice_deterministic_witness :
    (mabs.keep_dice (freshRoll 1) stateHealth4).dice
      = (mabs.keep_dice (freshRoll 1) stateHealth4).dice ∧
    (science.keep_dice (freshRoll 1) stateHealth4).dice
      = (science.keep_dice (freshRoll 1) stateHealth4).dice ∧
    (mabs.keep_dice (freshRoll 1) (mabs.keep_dice (freshRoll 1) stateHealth4).player).dice
      = (mabs.keep_dice (freshRoll 1) stateHealth4).dice ∧
    (science.keep_dice (freshRoll 1)
        (science.keep_dice (freshRoll 1) stateHealth4).player).dice
      = (science.keep_dice (freshRoll 1) stateHealth4).dice :=
  keep_dice_deterministic 1 (freshRoll 1) (freshRoll 1) stateHealth4 stateHealth4
    rfl rfl rfl

/-- C10. Neither `keep_dice` nor `process_stay`, in either variant, changes the
player state: for every input, the `Player` record after the call equals the
record before it, field by field. -/
theorem player_state_unchanged (dice : DiceContent) (command : String)
    (state : Player) (out : Stdout) :
    (mabs.keep_dice dice state).player = state ∧
    (science.keep_dice dice state).player = state ∧
    (mabs.process_stay command state out).player = state ∧
    (science.process_stay command state out).player = state := by
  refine ⟨?_, ?_, rfl, rfl⟩
  · unfold mabs.keep_dice
    split <;> rfl
  · unfold science.keep_dice
    split <;> rfl

/-- C11. The two variants are different policies: for every player state and
every fresh roll whose fields hold a reroll value (a value other than `KEEP`),
the StLucia-variant `keep_dice` and the Science-variant `keep_dice` yield
different rolls, the former with `three = KEEP`, the latter with `three` still
at the reroll value. -/
theorem keep_dice_variants_differ (reroll : Int) (state : Player)
    (hreroll : reroll ≠ KEEP) :
    (mabs.keep_dice (freshRoll reroll) state).dice.three = KEEP ∧
    (science.keep_dice (freshRoll reroll) state).dice.three = reroll ∧
    (mabs.keep_dice (freshRoll reroll) state).dice
      ≠ (science.keep_dice (freshRoll reroll) state).dice := by
  have hm : (mabs.keep_dice (freshRoll reroll) state).dice.three = KEEP := by
    unfold mabs.keep_dice
    split <;> rfl
  have hs : (science.keep_dice (freshRoll reroll) state).dice.three = reroll := by
    unfold science.keep_dice
    split <;> rfl
  refine ⟨hm, hs, ?_⟩
  intro heq
  have h3 := congrArg DiceContent.three heq
  rw [hm, hs] at h3
  exact hreroll h3.symm

/-- Witness of C11 at reroll value 1 and the scenario state `{health:4}`. -/
theorem keep_dice_variants_differ_witness :
    (1 : Int) ≠ KEEP ∧
    (mabs.keep_dice (freshRoll 1) stateHealth4).dice.three = KEEP ∧
    (science.keep_dice (freshRoll 1) stateHealth4).dice.three = 1 ∧
    (mabs.keep_dice (freshRoll 1) stateHealth4).dice
      ≠ (science.keep_dice (freshRoll 1) stateHealth4).dice :=
  ⟨by decide, keep_dice_variants_differ 1 stateHealth4 (by decide)⟩

/-- C13. Both variants of `keep_dice` only add keeps: for every input roll and
state, each field that equals `KEEP` before the call equals `KEEP` after it. -/
theorem keep_dice_preserves_keeps (dice : DiceContent) (state : Player) :
    (dice.attack = KEEP → (mabs.keep_dice dice state).dice.attack = KEEP) ∧
    (dice.health = KEEP → (mabs.keep_dice dice state).dice.health = KEEP) ∧
    (dice.three = KEEP → (mabs.keep_dice dice state).dice.three = KEEP) ∧
    (dice.attack = KEEP → (science.keep_dice dice state).dice.attack = KEEP) ∧
    (dice.health = KEEP → (science.keep_dice dice state).dice.health = KEEP) ∧
    (dice.three = KEEP → (science.keep_dice dice state).dice.three = KEEP) := by
  refine ⟨?_, ?_, ?_, ?_, ?_, ?_⟩
  · intro h
    unfold mabs.keep_dice
    split
    · rfl
    · exact h
  · intro h
    unfold mabs.keep_dice
    split
    · exact h
    · rfl
  · intro _
    unfold mabs.keep_dice
    split <;> rfl
  · intro h
    unfold science.keep_dice
    split
    · exact h
    · rfl
  · intro h
    unfold science.keep_dice
    split
    · rfl
    · exact h
  · intro h
    unfold science.keep_dice
    split <;> exact h

/-- Witness of C13: a roll whose `attack` is kept, at a state where the
StLucia variant keeps `health` and `three`; a roll whose `health` and `three`
are kept, at a state where the Science variant keeps `attack`. -/
theorem keep_dice_preserves_keeps_witness :
    (mabs.keep_dice { attack := KEEP, health := 2, three := 3 } stateOutside).dice.attack
      = KEEP ∧
    (science.keep_dice { attack := 1, health := KEEP, three := KEEP } stateHealth5).dice.health
      = KEEP ∧
    (science.keep_dice { attack := 1, health := KEEP, three := KEEP } stateHealth5).dice.three
      = KEEP :=
  ⟨(keep_dice_preserves_keeps { attack := KEEP, health := 2, three := 3 } stateOutside).1 rfl,
   (keep_dice_preserves_keeps { attack := 1, health := KEEP, three := KEEP }
      stateHealth5).2.2.2.2.1 rfl,
   (keep_dice_preserves_keeps { attack := 1, health := KEEP, three := KEEP }
      stateHealth5).2.2.2.2.2 rfl⟩

/-- C14. The Science-variant `keep_dice` depends on the player state only
through the test `health < 5`: for every roll and any two states on which the
test has the same outcome, the resulting rolls are equal. -/
theorem science_keep_dice_depends_on_test (dice : DiceContent) (state1 state2 : Player)
    (h : state1.health < 5 ↔ state2.health < 5) :
    (science.keep_dice dice state1).dice = (science.keep_dice dice state2).dice := by
  unfold science.keep_dice
  by_cases h1 : state1.health < 5
  · have h2 : state2.health < 5 := h.mp h1
    simp [h1, h2]
  · have h2 : ¬ state2.health < 5 := fun h3 => h1 (h.mpr h3)
    simp [h1, h2]

/-- Witness of C14: health 4 and health -2, in two states that differ in every
field, on a roll with three different values. -/
theorem science_keep_dice_depends_on_test_witness :
    (stateHealth4.health < 5 ↔ stateElsewhere.health < 5) ∧
    (science.keep_dice usedRoll stateHealth4).dice
      = (science.keep_dice usedRoll stateElsewhere).dice :=
  ⟨by decide, science_keep_dice_depends_on_test usedRoll stateHealth4 stateElsewhere
    (by decide)⟩

/-- C15. The StLucia-variant `keep_dice` depends on the player state only
through the test `label == stLuciaOccupant`: for every roll and any two states
on which the test has the same outcome, the resulting rolls are equal. -/
theorem mabs_keep_dice_depends_on_test (dice : DiceContent) (state1 state2 : Player)
    (h : state1.label = state1.stLuciaOccupant ↔ state2.label = state2.stLuciaOccupant) :
    (mabs.keep_dice dice state1).dice = (mabs.keep_dice dice state2).dice := by
  unfold mabs.keep_dice
  by_cases h1 : state1.stLuciaOccupant = state1.label
  · have h2 : state2.stLuciaOccupant = state2.label := (h.mp h1.symm).symm
    simp [h1, h2]
  · have h2 : ¬ state2.stLuciaOccupant = state2.label :=
      fun h3 => h1 (h.mpr h3.symm).symm
    simp [h1, h2]

/-- Witness of C15: two states outside StLucia that differ in every field, on
a roll with three different values. -/
theorem mabs_keep_dice_depends_on_test_witness :
    (stateOutside.label = stateOutside.stLuciaOccupant ↔
      stateElsewhere.label = stateElsewhere.stLuciaOccupant) ∧
    (mabs.keep_dice usedRoll stateOutside).dice
      = (mabs.keep_dice usedRoll stateElsewhere).dice :=
  ⟨by decide, mabs_keep_dice_depends_on_test usedRoll stateOutside stateElsewhere
    (by decide)⟩
